import Mathlib

/-!
Verification development for the labrat repository (pkg/hub and pkg/spoke).

The Go sources are shallowly embedded: Kubernetes `map[string]interface{}`
documents become the `KVal`/`KObj` association-list model, byte slices become
`List Nat` (each element one byte), and the dynamic-client / secret-read
collaborators become explicit function parameters returning `Except String`.
-/

/-- A loosely-typed document value, mirroring Go `interface{}` values as they
are consumed by the repository: string, bool, nested object, or anything else
(arrays, numbers, null), for which every type assertion in the source fails. -/
inductive KVal where
  | str (s : String)
  | bool (b : Bool)
  | obj (fields : List (String × KVal))
  | other

/-- A loosely-typed document object (Go `map[string]interface{}`),
modelled as an association list with the first binding of a key authoritative. -/
abbrev KObj := List (String × KVal)

/-- Map lookup on a loosely-typed object. -/
def kLookup : KObj → String → Option KVal
  | [], _ => none
  | (k, v) :: rest, key => if k = key then some v else kLookup rest key

/-- Go `v, ok := m[key].(map[string]interface{})`: present and an object. -/
def lookupObj (o : KObj) (key : String) : Option KObj :=
  match kLookup o key with
  | some (KVal.obj f) => some f
  | _ => none

/-- Go `v, ok := m[key].(string)`: present and a string. -/
def lookupStr (o : KObj) (key : String) : Option String :=
  match kLookup o key with
  | some (KVal.str s) => some s
  | _ => none

/-- Go `v, ok := m[key].(bool)`: present and a bool. -/
def lookupBool (o : KObj) (key : String) : Option Bool :=
  match kLookup o key with
  | some (KVal.bool b) => some b
  | _ => none

/-- Function `listStartsWith pat l` is Go `strings.HasPrefix(l, pat)` on lists. -/
def listStartsWith {α : Type} [DecidableEq α] : List α → List α → Bool
  | [], _ => true
  | _ :: _, [] => false
  | p :: ps, x :: xs => decide (p = x) && listStartsWith ps xs

/-- Function `listHasSub pat l` is Go `strings.Contains(l, pat)` on lists. -/
def listHasSub {α : Type} [DecidableEq α] (pat : List α) : List α → Bool
  | [] => pat.isEmpty
  | x :: xs => listStartsWith pat (x :: xs) || listHasSub pat xs

/-- Go `strings.Contains(s, pat)` on strings, via their character lists. -/
def strContains (s pat : String) : Bool :=
  listHasSub pat.toList s.toList

namespace Hub

/-- Taint key marking unreachable clusters
(`cluster.open-cluster-management.io/unreachable`). -/
def UnreachableTaintKey : String := "cluster.open-cluster-management.io/unreachable"

/-- The availability condition type of the open-cluster-management API
(`clusterv1.ManagedClusterConditionAvailable`). -/
def ManagedClusterConditionAvailable : String := "ManagedClusterConditionAvailable"

/-- Type `ClusterStatus` is a Go string type; its values are unconstrained strings. -/
abbrev ClusterStatus := String

/-- Constant `StatusReady`. -/
def StatusReady : ClusterStatus := "Ready"

/-- Constant `StatusNotReady`. -/
def StatusNotReady : ClusterStatus := "NotReady"

/-- Constant `StatusUnknown`. -/
def StatusUnknown : ClusterStatus := "Unknown"

/-- A taint on a ManagedCluster spec (only the key is consumed). -/
structure Taint where
  Key : String
deriving DecidableEq

/-- A `metav1.Condition` as consumed by the source: type, status
(`"True"`/`"False"`/`"Unknown"` as free-form string), message. `CondType`
embeds the Go field `Type` (a Lean keyword). -/
structure Condition where
  CondType : String
  Status : String
  Message : String
deriving DecidableEq

/-- The spec part of a ManagedCluster that the source reads. -/
structure ManagedClusterSpec where
  Taints : List Taint
deriving DecidableEq

/-- The status part of a ManagedCluster that the source reads. -/
structure ManagedClusterStatus where
  Conditions : List Condition
deriving DecidableEq

/-- A ManagedCluster restricted to the fields the source reads. -/
structure ManagedCluster where
  Name : String
  Spec : ManagedClusterSpec
  Status : ManagedClusterStatus
deriving DecidableEq

/-- Struct `ManagedClusterInfo` from pkg/hub/types.go. -/
structure ManagedClusterInfo where
  Name : String
  Status : ClusterStatus
  Available : String
  Message : String
deriving DecidableEq

/-- Struct `ManagedClusterFilter` from pkg/hub/types.go. -/
structure ManagedClusterFilter where
  Status : ClusterStatus
deriving DecidableEq

/-- Struct `ClusterDeploymentInfo` from pkg/hub/types.go. Field `Nspace` embeds the
Go field `Namespace` (renamed because `namespace` is a Lean keyword). -/
structure ClusterDeploymentInfo where
  Name : String := ""
  Nspace : String := ""
  PowerState : String := ""
  Installed : Bool := false
  APIUrl : String := ""
  ConsoleURL : String := ""
  KubeconfigSecretName : String := ""
  KubeconfigSecretNS : String := ""
  Platform : String := ""
  Region : String := ""
  Version : String := ""
deriving DecidableEq

/-- Struct `CombinedClusterInfo` from pkg/hub/types.go. -/
structure CombinedClusterInfo where
  Name : String := ""
  Status : ClusterStatus := ""
  PowerState : String := ""
  Platform : String := ""
  Region : String := ""
  Version : String := ""
  APIUrl : String := ""
  ConsoleURL : String := ""
  Available : String := ""
  KubeconfigSecret : String := ""
  Message : String := ""
deriving DecidableEq

/-- The condition scan of `deriveStatus` (the for-loop over
`cluster.Status.Conditions` in pkg/hub/managedclusters.go): the Go `switch`
has no default case, so a matching condition type with a status other than
True/False/Unknown lets the loop continue. -/
def deriveFromConditions : List Condition → ClusterStatus
  | [] => StatusUnknown
  | c :: rest =>
    if c.CondType == ManagedClusterConditionAvailable then
      if c.Status == "True" then StatusReady
      else if c.Status == "False" then StatusNotReady
      else if c.Status == "Unknown" then StatusUnknown
      else deriveFromConditions rest
    else deriveFromConditions rest

/-- Function `deriveStatus` from pkg/hub/managedclusters.go: unreachable taint wins,
then the availability condition scan, default Unknown. -/
def deriveStatus (cluster : ManagedCluster) : ClusterStatus :=
  if cluster.Spec.Taints.any (fun t => t.Key == UnreachableTaintKey) then
    StatusNotReady
  else
    deriveFromConditions cluster.Status.Conditions

/-- The condition scan of `getAvailableCondition` from
pkg/hub/managedclusters.go. -/
def availablePair : List Condition → String × String
  | [] => ("Unknown", "")
  | c :: rest =>
    if c.CondType == ManagedClusterConditionAvailable then (c.Status, c.Message)
    else availablePair rest

/-- Function `getAvailableCondition` from pkg/hub/managedclusters.go. -/
def getAvailableCondition (cluster : ManagedCluster) : String × String :=
  availablePair cluster.Status.Conditions

/-- The conversion/extraction loop of `List` in pkg/hub/managedclusters.go.
Each wire item is abstracted by the outcome of
`runtime.DefaultUnstructuredConverter.FromUnstructured` on it: either the
converted `ManagedCluster` or the conversion error. The loop returns on the
first conversion failure, wrapping the error. -/
def convertClusters : List (Except String ManagedCluster) → Except String (List ManagedClusterInfo)
  | [] => Except.ok []
  | Except.error e :: _ =>
    Except.error ("failed to convert unstructured to ManagedCluster: " ++ e)
  | Except.ok cluster :: rest =>
    let info : ManagedClusterInfo :=
      { Name := cluster.Name
        Status := deriveStatus cluster
        Available := (getAvailableCondition cluster).1
        Message := (getAvailableCondition cluster).2 }
    match convertClusters rest with
    | Except.error e => Except.error e
    | Except.ok infos => Except.ok (info :: infos)

/-- Method `List` of the managedClusterClient in pkg/hub/managedclusters.go, with the
dynamic client's list call abstracted by its result `queryResult`: an error,
or the list of wire items (each abstracted by its conversion outcome). -/
def listManagedClusters
    (queryResult : Except String (List (Except String ManagedCluster))) :
    Except String (List ManagedClusterInfo) :=
  match queryResult with
  | Except.error e => Except.error ("failed to list managed clusters: " ++ e)
  | Except.ok items => convertClusters items

/-- Method `Filter` of the managedClusterClient in pkg/hub/managedclusters.go. -/
def Filter (clusters : List ManagedClusterInfo) (filter : ManagedClusterFilter) :
    List ManagedClusterInfo :=
  if filter.Status == "" then clusters
  else clusters.filter (fun cluster => cluster.Status == filter.Status)

/-- The metadata block of `parseClusterDeployment` (pkg/hub/managedclusters.go):
`metadata.name` and `metadata.namespace`, each independently optional. -/
def parseMetadataFields (metadata : KObj) (info : ClusterDeploymentInfo) :
    ClusterDeploymentInfo :=
  let info :=
    match lookupStr metadata "name" with
    | some name => { info with Name := name }
    | none => info
  match lookupStr metadata "namespace" with
  | some ns => { info with Nspace := ns }
  | none => info

/-- The labels block of `parseClusterDeployment`: platform and region labels. -/
def parseLabelFields (metadata : KObj) (info : ClusterDeploymentInfo) :
    ClusterDeploymentInfo :=
  match lookupObj metadata "labels" with
  | none => info
  | some labels =>
    let info :=
      match lookupStr labels "hive.openshift.io/cluster-platform" with
      | some platform => { info with Platform := platform }
      | none => info
    match lookupStr labels "hive.openshift.io/cluster-region" with
    | some region => { info with Region := region }
    | none => info

/-- The `spec.clusterMetadata.adminKubeconfigSecretRef` block of
`parseClusterDeployment`: when a secret name is present the secret reference
is recorded, with the secret namespace equal to the already parsed
`info.Nspace`. -/
def parseKubeconfigRef (spec : KObj) (info : ClusterDeploymentInfo) :
    ClusterDeploymentInfo :=
  match lookupObj spec "clusterMetadata" with
  | none => info
  | some clusterMetadata =>
    match lookupObj clusterMetadata "adminKubeconfigSecretRef" with
    | none => info
    | some adminKubeconfigRef =>
      match lookupStr adminKubeconfigRef "name" with
      | none => info
      | some name =>
        { info with KubeconfigSecretName := name, KubeconfigSecretNS := info.Nspace }

/-- The spec block of `parseClusterDeployment`: power state, installed flag,
and the admin-kubeconfig secret reference. -/
def parseSpecFields (obj : KObj) (info : ClusterDeploymentInfo) :
    ClusterDeploymentInfo :=
  match lookupObj obj "spec" with
  | none => info
  | some spec =>
    let info :=
      match lookupStr spec "powerState" with
      | some powerState => { info with PowerState := powerState }
      | none => info
    let info :=
      match lookupBool spec "installed" with
      | some installed => { info with Installed := installed }
      | none => info
    parseKubeconfigRef spec info

/-- The status block of `parseClusterDeployment`: URLs, version, and the
status power state which overwrites the spec one. -/
def parseStatusFields (obj : KObj) (info : ClusterDeploymentInfo) :
    ClusterDeploymentInfo :=
  match lookupObj obj "status" with
  | none => info
  | some status =>
    let info :=
      match lookupStr status "apiURL" with
      | some apiURL => { info with APIUrl := apiURL }
      | none => info
    let info :=
      match lookupStr status "webConsoleURL" with
      | some consoleURL => { info with ConsoleURL := consoleURL }
      | none => info
    let info :=
      match lookupStr status "installVersion" with
      | some version => { info with Version := version }
      | none => info
    match lookupStr status "powerState" with
    | some powerState => { info with PowerState := powerState }
    | none => info

/-- Function `parseClusterDeployment` from pkg/hub/managedclusters.go: metadata is
required (error when absent or not an object); all remaining fields are
extracted defensively block by block, and an empty power state defaults to
`"Unknown"` at the end. -/
def parseClusterDeployment (obj : KObj) : Except String ClusterDeploymentInfo :=
  match lookupObj obj "metadata" with
  | none => Except.error "metadata not found or invalid"
  | some metadata =>
    let info : ClusterDeploymentInfo := {}
    let info := parseMetadataFields metadata info
    let info := parseLabelFields metadata info
    let info := parseSpecFields obj info
    let info := parseStatusFields obj info
    let info :=
      if info.PowerState = "" then { info with PowerState := "Unknown" } else info
    Except.ok info

/-- Field `spec.powerState` of a ClusterDeployment document, when present as a
string (statement-side helper for the precedence rule). -/
def specPowerState (obj : KObj) : Option String :=
  match lookupObj obj "spec" with
  | none => none
  | some spec => lookupStr spec "powerState"

/-- Field `status.powerState` of a ClusterDeployment document, when present as a
string (statement-side helper for the precedence rule). -/
def statusPowerState (obj : KObj) : Option String :=
  match lookupObj obj "status" with
  | none => none
  | some status => lookupStr status "powerState"

/-- Function `isNotFoundError` from pkg/hub/clusters.go, on the error's message text. -/
def isNotFoundError (e : String) : Bool :=
  strContains e "not found"

/-- The per-cluster body of the `ListCombined` loop in pkg/hub/clusters.go,
with the ClusterDeployment client's `Get` abstracted by `getCD` (cluster name
to parsed info or error message). -/
def combineCluster (getCD : String → Except String ClusterDeploymentInfo)
    (mc : ManagedClusterInfo) : CombinedClusterInfo :=
  let info : CombinedClusterInfo :=
    { Name := mc.Name
      Status := mc.Status
      Available := mc.Available
      Message := mc.Message }
  match getCD mc.Name with
  | Except.error e =>
    if isNotFoundError e then
      { info with
        PowerState := "N/A", Platform := "N/A", Region := "N/A", Version := "N/A",
        APIUrl := "", ConsoleURL := "", KubeconfigSecret := "" }
    else
      { info with
        PowerState := "Unknown", Platform := "Unknown", Region := "Unknown",
        Version := "Unknown" }
  | Except.ok cd =>
    let info :=
      { info with
        PowerState := cd.PowerState, Platform := cd.Platform, Region := cd.Region,
        Version := cd.Version, APIUrl := cd.APIUrl, ConsoleURL := cd.ConsoleURL }
    if cd.KubeconfigSecretName ≠ "" then
      { info with KubeconfigSecret := cd.KubeconfigSecretNS ++ "/" ++ cd.KubeconfigSecretName }
    else info

/-- Method `ListCombined` from pkg/hub/clusters.go, with the managed-cluster `List`
call abstracted by its result `listResult` and the ClusterDeployment `Get` by
`getCD`. -/
def ListCombined (listResult : Except String (List ManagedClusterInfo))
    (getCD : String → Except String ClusterDeploymentInfo) :
    Except String (List CombinedClusterInfo) :=
  match listResult with
  | Except.error e => Except.error ("failed to list managed clusters: " ++ e)
  | Except.ok managedClusters =>
    Except.ok (managedClusters.map (combineCluster getCD))

/-- The availability predicate used by all condition scans. -/
def isAvail (cond : Condition) : Bool :=
  cond.CondType == ManagedClusterConditionAvailable

/-- The power state `parseClusterDeployment` ends up with, phrased over the
two optional power-state fields (statement-side helper). -/
def effectivePowerState (obj : KObj) : String :=
  match statusPowerState obj with
  | some v => if v = "" then "Unknown" else v
  | none =>
    match specPowerState obj with
    | some v => if v = "" then "Unknown" else v
    | none => "Unknown"

/-- Concrete input for the C1 witness: unreachable taint plus a true
availability condition. -/
def c1Witness : ManagedCluster where
  Name := "c2"
  Spec := { Taints := [{ Key := UnreachableTaintKey }] }
  Status := { Conditions := [⟨ManagedClusterConditionAvailable, "True", "ok"⟩] }

/-- Concrete managed-cluster list for the C2 witness. -/
def c2Mcs : List ManagedClusterInfo :=
  [{ Name := "c1", Status := "Ready", Available := "True", Message := "ok" },
   { Name := "c2", Status := "Ready", Available := "True", Message := "ok" }]

/-- Concrete fetch outcomes for the C2 witness: a not-found error for `c1`
and a connectivity error for `c2`. -/
def c2GetCD : String → Except String ClusterDeploymentInfo := fun n =>
  if n = "c1" then Except.error "clusterdeployments.hive.openshift.io c1 not found"
  else Except.error "connection refused"

/-- Concrete document for the C4 counterexample: spec carries `"Running"`,
status carries the empty string. -/
def c4CexObj : KObj :=
  [("metadata", KVal.obj []),
   ("spec", KVal.obj [("powerState", KVal.str "Running")]),
   ("status", KVal.obj [("powerState", KVal.str "")])]

/-- Concrete document for the C4 witness: both sections carry a non-empty
power state. -/
def c4WitnessObj : KObj :=
  [("metadata", KVal.obj []),
   ("spec", KVal.obj [("powerState", KVal.str "Hibernating")]),
   ("status", KVal.obj [("powerState", KVal.str "Running")])]

/-- Concrete inputs for the C9 witness. -/
def c9Clusters : List ManagedClusterInfo :=
  [{ Name := "a", Status := "Ready", Available := "True", Message := "" },
   { Name := "b", Status := "NotReady", Available := "False", Message := "down" }]

/-- Concrete cluster entry for the C10 witness. -/
def c10Mc : ManagedClusterInfo :=
  { Name := "c3", Status := "Ready", Available := "True", Message := "ok" }

/-- Concrete fetch outcome for the C10 witness: a connectivity failure whose
message happens to mention "not found". -/
def c10GetCD : String → Except String ClusterDeploymentInfo :=
  fun _ => Except.error "dial tcp: host not found"

end Hub

namespace Spoke

/-- The bytes of the YAML marker `"apiVersion:"` (ASCII codes). -/
def apiVersionMarker : List Nat := "apiVersion:".toList.map Char.toNat

/-- The bytes of the YAML marker `"kind:"` (ASCII codes). -/
def kindMarker : List Nat := "kind:".toList.map Char.toNat

/-- ASCII whitespace bytes trimmed by Go `strings.TrimSpace` (the payloads
handled here are ASCII text, so multi-byte space runes do not occur). -/
def isSpaceByte (b : Nat) : Bool :=
  b = 32 || b = 9 || b = 10 || b = 11 || b = 12 || b = 13

/-- Go `strings.TrimSpace` on a byte list. -/
def trimSpaceBytes (l : List Nat) : List Nat :=
  (((l.dropWhile isSpaceByte).reverse).dropWhile isSpaceByte).reverse

/-- The standard base64 alphabet as a map from sextet to ASCII code. -/
def encChar (i : Nat) : Nat :=
  if i < 26 then 65 + i
  else if i < 52 then 97 + (i - 26)
  else if i < 62 then 48 + (i - 52)
  else if i = 62 then 43
  else 47

/-- Inverse of the standard base64 alphabet: ASCII code to sextet. -/
def decChar (c : Nat) : Option Nat :=
  if 65 ≤ c ∧ c ≤ 90 then some (c - 65)
  else if 97 ≤ c ∧ c ≤ 122 then some (26 + (c - 97))
  else if 48 ≤ c ∧ c ≤ 57 then some (52 + (c - 48))
  else if c = 43 then some 62
  else if c = 47 then some 63
  else none

/-- Standard `base64.StdEncoding` encoding of a byte list: 3-byte groups map to 4
alphabet bytes, with `'='` (61) padding for 1- or 2-byte tails. -/
def encodeB64 : List Nat → List Nat
  | a :: b :: c :: rest =>
    encChar (a / 4) :: encChar ((a % 4) * 16 + b / 16) ::
      encChar ((b % 16) * 4 + c / 64) :: encChar (c % 64) :: encodeB64 rest
  | [a, b] => [encChar (a / 4), encChar ((a % 4) * 16 + b / 16), encChar ((b % 16) * 4), 61]
  | [a] => [encChar (a / 4), encChar ((a % 4) * 16), 61, 61]
  | [] => []

/-- Group-wise `base64.StdEncoding` decoding: the input length must be a
multiple of four, `'='` padding may appear only at the end, and the unused
low bits of a padded group are discarded (as Go's non-strict decoder does). -/
def decodeGroups : List Nat → Option (List Nat)
  | [] => some []
  | c0 :: c1 :: c2 :: c3 :: rest =>
    match decChar c0, decChar c1 with
    | some s0, some s1 =>
      if c2 = 61 then
        if c3 = 61 ∧ rest = [] then some [s0 * 4 + s1 / 16] else none
      else
        match decChar c2 with
        | none => none
        | some s2 =>
          if c3 = 61 then
            if rest = [] then some [s0 * 4 + s1 / 16, (s1 % 16) * 16 + s2 / 4] else none
          else
            match decChar c3 with
            | none => none
            | some s3 =>
              (decodeGroups rest).map
                (fun bs => (s0 * 4 + s1 / 16) :: ((s1 % 16) * 16 + s2 / 4) ::
                  ((s2 % 4) * 64 + s3) :: bs)
    | _, _ => none
  | _ => none

/-- Model of `base64.StdEncoding.DecodeString`: carriage returns and newlines are
skipped, then the input is decoded in groups of four. -/
def decodeB64 (l : List Nat) : Option (List Nat) :=
  decodeGroups (l.filter (fun c => !(c == 13) && !(c == 10)))

/-- Function `isBase64Encoded` from the spoke kubeconfig extractor: data that already
looks like YAML (leading `"apiVersion:"` after trimming) is not treated as
encoded; otherwise the data is encoded iff it decodes successfully. -/
def isBase64Encoded (data : List Nat) : Bool :=
  if listStartsWith apiVersionMarker (trimSpaceBytes data) then false
  else (decodeB64 data).isSome

/-- Step 5 of `Extract`: attempt a base64 decode when the data looks encoded,
falling back to the raw bytes when decoding fails. -/
def normalizeKubeconfig (kubeconfigData : List Nat) : List Nat :=
  if isBase64Encoded kubeconfigData then
    match decodeB64 kubeconfigData with
    | some decoded => decoded
    | none => kubeconfigData
  else kubeconfigData

/-- Method `Extract` from the spoke kubeconfig extractor. The dynamic-client get of
the ClusterDeployment is abstracted by `cdResult` (the unstructured object or
the error message) and the secret read by `secretGet` (namespace and name to
the secret's data map, byte values as `List Nat`). -/
def Extract (cdResult : Except String KObj)
    (secretGet : String → String → Except String (List (String × List Nat)))
    (clusterName : String) : Except String (List Nat) :=
  match cdResult with
  | Except.error e =>
    Except.error ("failed to get ClusterDeployment " ++ clusterName ++ ": " ++ e ++
      " (cluster not found or not managed by Hive)")
  | Except.ok cd =>
    match lookupObj cd "spec" with
    | none => Except.error "ClusterDeployment spec not found"
    | some spec =>
      match lookupObj spec "clusterMetadata" with
      | none => Except.error "ClusterDeployment clusterMetadata not found"
      | some clusterMetadata =>
        match lookupObj clusterMetadata "adminKubeconfigSecretRef" with
        | none => Except.error "adminKubeconfigSecretRef not found in ClusterDeployment"
        | some kubeconfigRef =>
          match lookupStr kubeconfigRef "name" with
          | none => Except.error "secret name not found in adminKubeconfigSecretRef"
          | some secretName =>
            match secretGet clusterName secretName with
            | Except.error e =>
              Except.error ("failed to get admin kubeconfig secret " ++ clusterName ++
                "/" ++ secretName ++ ": " ++ e)
            | Except.ok data =>
              match data.lookup "kubeconfig" with
              | none =>
                Except.error ("kubeconfig key not found in secret " ++ clusterName ++
                  "/" ++ secretName)
              | some kubeconfigData =>
                if kubeconfigData.length = 0 then
                  Except.error ("kubeconfig data is empty in secret " ++ clusterName ++
                    "/" ++ secretName)
                else
                  let kubeconfig := normalizeKubeconfig kubeconfigData
                  if listHasSub apiVersionMarker kubeconfig &&
                      listHasSub kindMarker kubeconfig then
                    Except.ok kubeconfig
                  else
                    Except.error "kubeconfig validation failed: missing required YAML fields"

/-- A file-system effect of `ExtractToFile`: directory creation or a file
write, each with its permission bits. -/
inductive FsOp where
  | mkdirAll (dir : String) (perm : Nat)
  | writeFile (path : String) (content : List Nat) (perm : Nat)
deriving DecidableEq

/-- Go `filepath.Dir` on slash-separated paths: everything before the last
separator, or `"."` when there is none. -/
def dirOf (p : String) : String :=
  let parts := p.splitOn "/"
  if parts.length ≤ 1 then "." else String.intercalate "/" parts.dropLast

/-- Method `ExtractToFile` from the spoke kubeconfig extractor: on success the
performed effects are `MkdirAll(dir, 0o755)` then `WriteFile(path, bytes,
0o600)`; on extraction failure the error is returned and nothing is written. -/
def ExtractToFile (cdResult : Except String KObj)
    (secretGet : String → String → Except String (List (String × List Nat)))
    (clusterName outputPath : String) : Except String (List FsOp) :=
  match Extract cdResult secretGet clusterName with
  | Except.error e => Except.error e
  | Except.ok kubeconfig =>
    Except.ok [FsOp.mkdirAll (dirOf outputPath) 0o755,
      FsOp.writeFile outputPath kubeconfig 0o600]

/-- The secret-reference lookup chain of `Extract`
(`spec.clusterMetadata.adminKubeconfigSecretRef.name`), as a statement-side
helper. -/
def adminSecretRefName (cd : KObj) : Option String :=
  match lookupObj cd "spec" with
  | none => none
  | some spec =>
    match lookupObj spec "clusterMetadata" with
    | none => none
    | some clusterMetadata =>
      match lookupObj clusterMetadata "adminKubeconfigSecretRef" with
      | none => none
      | some kubeconfigRef => lookupStr kubeconfigRef "name"

/-- Byte list of a string of ASCII text (statement-side helper). -/
def strBytes (s : String) : List Nat := s.toList.map Char.toNat

/-- A minimal ClusterDeployment document whose admin-kubeconfig secret
reference is `secretName` (statement-side input builder). -/
def mkCD (secretName : String) : KObj :=
  [("spec", KVal.obj [("clusterMetadata", KVal.obj
    [("adminKubeconfigSecretRef", KVal.obj [("name", KVal.str secretName)])])])]

/-- A secret-read collaborator holding `value` under the `kubeconfig` key
(statement-side input builder). -/
def mkSecretGet (value : List Nat) :
    String → String → Except String (List (String × List Nat)) :=
  fun _ _ => Except.ok [("kubeconfig", value)]

/-- Concrete kubeconfig document for the C3 witness. -/
def c3Doc : List Nat := strBytes "apiVersion: v1\nkind: Config"

/-- Concrete value for the C3 witness fallback part: not YAML-leading, not
valid base64, but containing both required markers. -/
def c3Fallback : List Nat := strBytes "# admin\napiVersion: v1\nkind: Config"

/-- Concrete secret data without the `kubeconfig` key, for the C7 witness. -/
def c7BadSecretGet : String → String → Except String (List (String × List Nat)) :=
  fun _ _ => Except.ok [("token", [97])]

end Spoke

namespace Hub

lemma deriveFromConditions_find (conds : List Condition) :
    (conds.find? isAvail = none → deriveFromConditions conds = StatusUnknown) ∧
    (∀ cond, conds.find? isAvail = some cond →
      (cond.Status = "True" → deriveFromConditions conds = StatusReady) ∧
      (cond.Status = "False" → deriveFromConditions conds = StatusNotReady) ∧
      (cond.Status = "Unknown" → deriveFromConditions conds = StatusUnknown)) := by
  induction conds with
  | nil => simp [deriveFromConditions]
  | cons c rest ih =>
    by_cases h : isAvail c = true
    · rw [List.find?_cons_of_pos _ h]
      refine ⟨fun hnone => Option.noConfusion hnone, fun cond hsome => ?_⟩
      obtain rfl : c = cond := by injection hsome
      unfold isAvail at h
      refine ⟨fun hs => ?_, fun hs => ?_, fun hs => ?_⟩ <;>
        simp [deriveFromConditions, h, hs]
    · rw [List.find?_cons_of_neg _ h]
      have hne : (c.CondType == ManagedClusterConditionAvailable) = false := by
        unfold isAvail at h
        exact Bool.eq_false_iff.mpr h
      constructor
      · intro hnone
        simpa [deriveFromConditions, hne] using ih.1 hnone
      · intro cond hsome
        have := ih.2 cond hsome
        refine ⟨fun hs => ?_, fun hs => ?_, fun hs => ?_⟩ <;>
          simpa [deriveFromConditions, hne] using (by
            first
            | exact this.1 hs
            | exact this.2.1 hs
            | exact this.2.2 hs)

/-- C1: `deriveStatus` returns NotReady whenever the unreachable taint is
present, regardless of conditions; otherwise the first availability condition
decides Ready/NotReady/Unknown for value True/False/Unknown, and the absence
of an availability condition yields Unknown. -/
theorem deriveStatus_spec (c : ManagedCluster) :
    ((∃ t ∈ c.Spec.Taints, t.Key = UnreachableTaintKey) →
      deriveStatus c = StatusNotReady) ∧
    ((∀ t ∈ c.Spec.Taints, t.Key ≠ UnreachableTaintKey) →
      (c.Status.Conditions.find? isAvail = none → deriveStatus c = StatusUnknown) ∧
      (∀ cond, c.Status.Conditions.find? isAvail = some cond →
        (cond.Status = "True" → deriveStatus c = StatusReady) ∧
        (cond.Status = "False" → deriveStatus c = StatusNotReady) ∧
        (cond.Status = "Unknown" → deriveStatus c = StatusUnknown))) := by
  constructor
  · rintro ⟨t, ht, hkey⟩
    have hany : c.Spec.Taints.any (fun t => t.Key == UnreachableTaintKey) = true :=
      List.any_eq_true.mpr ⟨t, ht, by simp [hkey]⟩
    simp [deriveStatus, hany]
  · intro hno
    have hany : c.Spec.Taints.any (fun t => t.Key == UnreachableTaintKey) = false := by
      rw [List.any_eq_false]
      intro t ht
      simpa using hno t ht
    have hderive : deriveStatus c = deriveFromConditions c.Status.Conditions := by
      simp [deriveStatus, hany]
    rw [hderive]
    exact deriveFromConditions_find c.Status.Conditions

/-- Witness for C1: an unreachable-tainted cluster whose availability
condition says True is still NotReady. -/
theorem deriveStatus_spec_witness : deriveStatus c1Witness = StatusNotReady :=
  (deriveStatus_spec c1Witness).1
    ⟨{ Key := UnreachableTaintKey }, by simp [c1Witness], rfl⟩

lemma combineCluster_notFound (getCD : String → Except String ClusterDeploymentInfo)
    (mc : ManagedClusterInfo) (e : String)
    (h : getCD mc.Name = Except.error e) (hnf : isNotFoundError e = true) :
    combineCluster getCD mc =
      { Name := mc.Name, Status := mc.Status, Available := mc.Available,
        Message := mc.Message, PowerState := "N/A", Platform := "N/A",
        Region := "N/A", Version := "N/A", APIUrl := "", ConsoleURL := "",
        KubeconfigSecret := "" } := by
  simp [combineCluster, h, hnf]

lemma combineCluster_otherError (getCD : String → Except String ClusterDeploymentInfo)
    (mc : ManagedClusterInfo) (e : String)
    (h : getCD mc.Name = Except.error e) (hnf : isNotFoundError e = false) :
    combineCluster getCD mc =
      { Name := mc.Name, Status := mc.Status, Available := mc.Available,
        Message := mc.Message, PowerState := "Unknown", Platform := "Unknown",
        Region := "Unknown", Version := "Unknown", APIUrl := "", ConsoleURL := "",
        KubeconfigSecret := "" } := by
  simp [combineCluster, h, hnf]

lemma combineCluster_Name (getCD : String → Except String ClusterDeploymentInfo)
    (mc : ManagedClusterInfo) : (combineCluster getCD mc).Name = mc.Name := by
  unfold combineCluster
  cases h : getCD mc.Name with
  | error e => by_cases hnf : isNotFoundError e <;> simp [hnf]
  | ok cd => by_cases hk : cd.KubeconfigSecretName = "" <;> simp [hk]

/-- C2: on a successful underlying listing, `ListCombined` always succeeds,
preserves the count and per-index cluster order, and per cluster substitutes
the `"N/A"` sentinels on a not-found fetch error and the `"Unknown"` sentinels
on any other fetch error, independently of the other clusters. -/
theorem listCombined_spec (mcs : List ManagedClusterInfo)
    (getCD : String → Except String ClusterDeploymentInfo) :
    ListCombined (Except.ok mcs) getCD = Except.ok (mcs.map (combineCluster getCD)) ∧
    (mcs.map (combineCluster getCD)).length = mcs.length ∧
    ∀ i (hi : i < mcs.length) (hi2 : i < (mcs.map (combineCluster getCD)).length),
      ((mcs.map (combineCluster getCD)).get ⟨i, hi2⟩).Name = (mcs.get ⟨i, hi⟩).Name ∧
      ∀ e, getCD (mcs.get ⟨i, hi⟩).Name = Except.error e →
        (isNotFoundError e = true →
          ((mcs.map (combineCluster getCD)).get ⟨i, hi2⟩).PowerState = "N/A" ∧
          ((mcs.map (combineCluster getCD)).get ⟨i, hi2⟩).Platform = "N/A" ∧
          ((mcs.map (combineCluster getCD)).get ⟨i, hi2⟩).Region = "N/A" ∧
          ((mcs.map (combineCluster getCD)).get ⟨i, hi2⟩).Version = "N/A") ∧
        (isNotFoundError e = false →
          ((mcs.map (combineCluster getCD)).get ⟨i, hi2⟩).PowerState = "Unknown" ∧
          ((mcs.map (combineCluster getCD)).get ⟨i, hi2⟩).Platform = "Unknown" ∧
          ((mcs.map (combineCluster getCD)).get ⟨i, hi2⟩).Region = "Unknown" ∧
          ((mcs.map (combineCluster getCD)).get ⟨i, hi2⟩).Version = "Unknown") := by
  refine ⟨rfl, List.length_map _ _, fun i hi hi2 => ?_⟩
  have hm : (mcs.map (combineCluster getCD)).get ⟨i, hi2⟩ =
      combineCluster getCD (mcs.get ⟨i, hi⟩) := by
    simp
  rw [hm]
  refine ⟨combineCluster_Name getCD _, fun e he => ⟨fun hnf => ?_, fun hnf => ?_⟩⟩
  · rw [combineCluster_notFound getCD _ e he hnf]
    exact ⟨rfl, rfl, rfl, rfl⟩
  · rw [combineCluster_otherError getCD _ e he hnf]
    exact ⟨rfl, rfl, rfl, rfl⟩

/-- Witness for C2: with one not-found and one connectivity failure, both
clusters stay in the output in order, with `"N/A"` and `"Unknown"` sentinels
respectively. -/
theorem listCombined_spec_witness :
    ListCombined (Except.ok c2Mcs) c2GetCD = Except.ok (c2Mcs.map (combineCluster c2GetCD)) ∧
    (c2Mcs.map (combineCluster c2GetCD)).length = c2Mcs.length ∧
    ((c2Mcs.map (combineCluster c2GetCD)).get ⟨0, by decide⟩).PowerState = "N/A" ∧
    ((c2Mcs.map (combineCluster c2GetCD)).get ⟨1, by decide⟩).PowerState = "Unknown" := by
  obtain ⟨hok, hlen, hidx⟩ := listCombined_spec c2Mcs c2GetCD
  refine ⟨hok, hlen, ?_, ?_⟩
  · exact (((hidx 0 (by decide) (by decide)).2
      "clusterdeployments.hive.openshift.io c1 not found" rfl).1 (by decide)).1
  · exact (((hidx 1 (by decide) (by decide)).2
      "connection refused" rfl).2 (by decide)).1

/-- C10: the not-found classification of the correlator is a plain substring
test on the error message, so any error mentioning `"not found"` takes the
`"N/A"` path and every other error takes the `"Unknown"` path, on which the
URL and secret-reference fields stay empty strings. -/
theorem notFound_classification (mc : ManagedClusterInfo)
    (getCD : String → Except String ClusterDeploymentInfo) (e : String)
    (h : getCD mc.Name = Except.error e) :
    isNotFoundError e = strContains e "not found" ∧
    (strContains e "not found" = true →
      combineCluster getCD mc =
        { Name := mc.Name, Status := mc.Status, Available := mc.Available,
          Message := mc.Message, PowerState := "N/A", Platform := "N/A",
          Region := "N/A", Version := "N/A", APIUrl := "", ConsoleURL := "",
          KubeconfigSecret := "" }) ∧
    (strContains e "not found" = false →
      combineCluster getCD mc =
        { Name := mc.Name, Status := mc.Status, Available := mc.Available,
          Message := mc.Message, PowerState := "Unknown", Platform := "Unknown",
          Region := "Unknown", Version := "Unknown", APIUrl := "", ConsoleURL := "",
          KubeconfigSecret := "" }) :=
  ⟨rfl, fun hc => combineCluster_notFound getCD mc e h hc,
    fun hc => combineCluster_otherError getCD mc e h hc⟩

/-- Witness for C10: a connectivity error mentioning "not found" is
classified as not-found and yields the `"N/A"` sentinels. -/
theorem notFound_classification_witness :
    combineCluster c10GetCD c10Mc =
      { Name := "c3", Status := "Ready", Available := "True", Message := "ok",
        PowerState := "N/A", Platform := "N/A", Region := "N/A", Version := "N/A",
        APIUrl := "", ConsoleURL := "", KubeconfigSecret := "" } :=
  (notFound_classification c10Mc c10GetCD "dial tcp: host not found" rfl).2.1 (by decide)

lemma convertClusters_allOk (items : List (Except String ManagedCluster))
    (h : ∀ r ∈ items, ∃ c, r = Except.ok c) :
    ∃ infos, convertClusters items = Except.ok infos ∧ infos.length = items.length := by
  induction items with
  | nil => exact ⟨[], rfl, rfl⟩
  | cons r rest ih =>
    obtain ⟨c, rfl⟩ := h r (List.mem_cons_self r rest)
    obtain ⟨infos, heq, hlen⟩ := ih (fun r hr => h r (List.mem_cons_of_mem _ hr))
    refine ⟨⟨c.Name, deriveStatus c, (getAvailableCondition c).1,
      (getAvailableCondition c).2⟩ :: infos, ?_, by simp [hlen]⟩
    simp [convertClusters, heq]

lemma convertClusters_firstError (pre : List (Except String ManagedCluster))
    (e : String) (rest : List (Except String ManagedCluster))
    (h : ∀ r ∈ pre, ∃ c, r = Except.ok c) :
    convertClusters (pre ++ Except.error e :: rest) =
      Except.error ("failed to convert unstructured to ManagedCluster: " ++ e) := by
  induction pre with
  | nil => rfl
  | cons r pre ih =>
    obtain ⟨c, rfl⟩ := h r (List.mem_cons_self r pre)
    have hih := ih (fun r hr => h r (List.mem_cons_of_mem _ hr))
    simp [convertClusters, hih]

/-- C6 (amended): the lister fails when the underlying query fails, wrapping
the query error; it also fails whenever converting any returned wire item
fails, returning the first failing item's conversion error no matter how
many items converted before it; and when the query succeeds and every item
converts, it returns the record list without error. -/
theorem list_error_spec :
    (∀ e, listManagedClusters (Except.error e) =
      Except.error ("failed to list managed clusters: " ++ e)) ∧
    (∀ (pre : List (Except String ManagedCluster)) e rest,
      (∀ r ∈ pre, ∃ c, r = Except.ok c) →
      listManagedClusters (Except.ok (pre ++ Except.error e :: rest)) =
        Except.error ("failed to convert unstructured to ManagedCluster: " ++ e)) ∧
    (∀ items, (∀ r ∈ items, ∃ c, r = Except.ok c) →
      ∃ infos, listManagedClusters (Except.ok items) = Except.ok infos ∧
        infos.length = items.length) :=
  ⟨fun _ => rfl, fun pre e rest h => convertClusters_firstError pre e rest h,
    fun items h => convertClusters_allOk items h⟩

/-- Counterexample to C6 as stated: a successful query whose single item
fails wire conversion still makes the lister return an error. -/
theorem list_conversion_cex :
    listManagedClusters (Except.ok [Except.error "unexpected field type"]) =
      Except.error "failed to convert unstructured to ManagedCluster: unexpected field type" :=
  rfl

/-- Witness for C6: a successful query whose items all convert yields the
record list without error, and a conversion failure after a converting item
still fails the listing with the wrapped conversion error. -/
theorem list_error_spec_witness :
    (∃ infos, listManagedClusters (Except.ok [Except.ok c1Witness]) = Except.ok infos ∧
      infos.length = 1) ∧
    listManagedClusters
        (Except.ok ([Except.ok c1Witness] ++ Except.error "bad taints field" :: [])) =
      Except.error "failed to convert unstructured to ManagedCluster: bad taints field" := by
  constructor
  · have h := (list_error_spec).2.2 [Except.ok c1Witness]
      (fun r hr => ⟨c1Witness, by simpa using hr⟩)
    simpa using h
  · exact (list_error_spec).2.1 [Except.ok c1Witness] "bad taints field" []
      (fun r hr => ⟨c1Witness, by simpa using hr⟩)

lemma parseMetadataFields_PowerState (metadata : KObj) (info : ClusterDeploymentInfo) :
    (parseMetadataFields metadata info).PowerState = info.PowerState := by
  rcases h1 : lookupStr metadata "name" with _ | n <;>
    rcases h2 : lookupStr metadata "namespace" with _ | ns <;>
      simp [parseMetadataFields, h1, h2]

lemma parseLabelFields_PowerState (metadata : KObj) (info : ClusterDeploymentInfo) :
    (parseLabelFields metadata info).PowerState = info.PowerState := by
  rcases h1 : lookupObj metadata "labels" with _ | labels
  · simp [parseLabelFields, h1]
  · rcases h2 : lookupStr labels "hive.openshift.io/cluster-platform" with _ | p <;>
      rcases h3 : lookupStr labels "hive.openshift.io/cluster-region" with _ | r <;>
        simp [parseLabelFields, h1, h2, h3]

lemma parseKubeconfigRef_PowerState (spec : KObj) (info : ClusterDeploymentInfo) :
    (parseKubeconfigRef spec info).PowerState = info.PowerState := by
  rcases h1 : lookupObj spec "clusterMetadata" with _ | cm
  · simp [parseKubeconfigRef, h1]
  · rcases h2 : lookupObj cm "adminKubeconfigSecretRef" with _ | kref
    · simp [parseKubeconfigRef, h1, h2]
    · rcases h3 : lookupStr kref "name" with _ | nm <;>
        simp [parseKubeconfigRef, h1, h2, h3]

lemma parseSpecFields_PowerState (obj : KObj) (info : ClusterDeploymentInfo) :
    (parseSpecFields obj info).PowerState = (specPowerState obj).getD info.PowerState := by
  rcases h1 : lookupObj obj "spec" with _ | spec
  · simp [parseSpecFields, specPowerState, h1]
  · rcases h2 : lookupStr spec "powerState" with _ | ps <;>
      rcases h3 : lookupBool spec "installed" with _ | b <;>
        simp [parseSpecFields, specPowerState, h1, h2, h3, parseKubeconfigRef_PowerState]

lemma parseStatusFields_PowerState (obj : KObj) (info : ClusterDeploymentInfo) :
    (parseStatusFields obj info).PowerState = (statusPowerState obj).getD info.PowerState := by
  rcases h0 : lookupObj obj "status" with _ | status
  · simp [parseStatusFields, statusPowerState, h0]
  · rcases h1 : lookupStr status "apiURL" with _ | a <;>
      rcases h2 : lookupStr status "webConsoleURL" with _ | w <;>
        rcases h3 : lookupStr status "installVersion" with _ | v <;>
          rcases h4 : lookupStr status "powerState" with _ | ps <;>
            simp [parseStatusFields, statusPowerState, h0, h1, h2, h3, h4]

/-- C4 (amended): on any parseable document, the status power state wins over
the spec one and a single present value is used, except that an empty-string
winning value is replaced by the default `"Unknown"`, which is also the value
when neither section carries a power state. -/
theorem parse_powerState_spec (obj : KObj) (metadata : KObj)
    (h : lookupObj obj "metadata" = some metadata) :
    ∃ info, parseClusterDeployment obj = Except.ok info ∧
      info.PowerState = effectivePowerState obj := by
  simp only [parseClusterDeployment, h]
  refine ⟨_, rfl, ?_⟩
  have hx : (parseStatusFields obj (parseSpecFields obj
      (parseLabelFields metadata (parseMetadataFields metadata {})))).PowerState =
      (statusPowerState obj).getD ((specPowerState obj).getD "") := by
    rw [parseStatusFields_PowerState, parseSpecFields_PowerState,
      parseLabelFields_PowerState, parseMetadataFields_PowerState]
  rw [apply_ite (fun info : ClusterDeploymentInfo => info.PowerState)]
  simp only [hx]
  unfold effectivePowerState
  rcases hst : statusPowerState obj with _ | v
  · rcases hsp : specPowerState obj with _ | w <;> simp
  · simp

/-- Counterexample to C4 as stated: with both sections carrying a power-state
field, the result is not the status section's (empty) value but the default
`"Unknown"`. -/
theorem parse_powerState_cex :
    specPowerState c4CexObj = some "Running" ∧
    statusPowerState c4CexObj = some "" ∧
    Except.map (fun info => info.PowerState) (parseClusterDeployment c4CexObj) =
      Except.ok "Unknown" ∧
    ("Unknown" : String) ≠ "" := by
  refine ⟨rfl, rfl, rfl, by decide⟩

/-- Witness for C4: the status power state overwrites the spec one. -/
theorem parse_powerState_spec_witness :
    ∃ info, parseClusterDeployment c4WitnessObj = Except.ok info ∧
      info.PowerState = effectivePowerState c4WitnessObj :=
  parse_powerState_spec c4WitnessObj [] rfl

/-- C5 (amended): every field except the metadata subtree is independently
optional — a missing or non-object metadata fails the parse, while a document
with just an empty metadata object parses to the zero-valued record (with the
power state defaulted to `"Unknown"`). -/
theorem parse_defensive_spec (obj : KObj) :
    (lookupObj obj "metadata" = none →
      parseClusterDeployment obj = Except.error "metadata not found or invalid") ∧
    (∀ metadata, lookupObj obj "metadata" = some metadata →
      ∃ info, parseClusterDeployment obj = Except.ok info) ∧
    (parseClusterDeployment [("metadata", KVal.obj [])] =
      Except.ok ⟨"", "", "Unknown", false, "", "", "", "", "", "", ""⟩) := by
  refine ⟨fun h => by simp [parseClusterDeployment, h], fun metadata h => ?_, rfl⟩
  simp only [parseClusterDeployment, h]
  exact ⟨_, rfl⟩

/-- Counterexample to C5 as stated: a document without a metadata subtree
makes the whole parse fail instead of yielding zero-valued fields. -/
theorem parse_metadata_cex :
    parseClusterDeployment [] = Except.error "metadata not found or invalid" :=
  rfl

/-- Witness for C5: a document whose metadata object is present parses
without error. -/
theorem parse_defensive_spec_witness :
    ∃ info, parseClusterDeployment [("metadata", KVal.obj [("name", KVal.str "c7")])] =
      Except.ok info :=
  (parse_defensive_spec [("metadata", KVal.obj [("name", KVal.str "c7")])]).2.1
    [("name", KVal.str "c7")] rfl

/-- C9: `Filter` is the identity for an empty criterion, maps the empty list
to the empty list for every criterion, and for a non-empty criterion returns
exactly the exact-status matches in input order (so an unrecognized status
yields a silently empty result). -/
theorem filter_spec (clusters : List ManagedClusterInfo) (f : ManagedClusterFilter) :
    (f.Status = "" → Filter clusters f = clusters) ∧
    (Filter [] f = []) ∧
    (f.Status ≠ "" →
      (Filter clusters f).Sublist clusters ∧
      (∀ c, c ∈ Filter clusters f ↔ c ∈ clusters ∧ c.Status = f.Status) ∧
      ((∀ c ∈ clusters, c.Status ≠ f.Status) → Filter clusters f = [])) := by
  refine ⟨fun h => by simp [Filter, h], by unfold Filter; split <;> simp, fun h => ?_⟩
  have hne : (f.Status == "") = false := by simpa using h
  refine ⟨by simp [Filter, hne], fun c => by simp [Filter, hne], fun hall => ?_⟩
  simp only [Filter, hne, Bool.false_eq_true, if_false]
  rw [List.filter_eq_nil_iff]
  intro c hc
  simpa using hall c hc

/-- Witness for C9: identity on an empty criterion and order-preserving
exact-match filtering on a concrete list. -/
theorem filter_spec_witness :
    Filter c9Clusters { Status := "" } = c9Clusters ∧
    (Filter c9Clusters { Status := "Ready" }).Sublist c9Clusters := by
  constructor
  · exact (filter_spec c9Clusters { Status := "" }).1 rfl
  · exact ((filter_spec c9Clusters { Status := "Ready" }).2.2 (by decide)).1

end Hub

namespace Spoke

lemma decChar_encChar : ∀ s < 64, decChar (encChar s) = some s := by decide

lemma encChar_ne_61 (s : Nat) : encChar s ≠ 61 := by
  unfold encChar; split_ifs <;> omega

lemma encChar_ne_58 (s : Nat) : encChar s ≠ 58 := by
  unfold encChar; split_ifs <;> omega

lemma encChar_ne_13 (s : Nat) : encChar s ≠ 13 := by
  unfold encChar; split_ifs <;> omega

lemma encChar_ne_10 (s : Nat) : encChar s ≠ 10 := by
  unfold encChar; split_ifs <;> omega

lemma encodeB64_mem : ∀ (l : List Nat), ∀ x ∈ encodeB64 l, x ≠ 58 ∧ x ≠ 13 ∧ x ≠ 10
  | [] => by simp [encodeB64]
  | [a] => by
    intro x hx
    simp only [encodeB64, List.mem_cons, List.not_mem_nil, or_false] at hx
    rcases hx with rfl | rfl | rfl | rfl
    · exact ⟨encChar_ne_58 _, encChar_ne_13 _, encChar_ne_10 _⟩
    · exact ⟨encChar_ne_58 _, encChar_ne_13 _, encChar_ne_10 _⟩
    · exact ⟨by decide, by decide, by decide⟩
    · exact ⟨by decide, by decide, by decide⟩
  | [a, b] => by
    intro x hx
    simp only [encodeB64, List.mem_cons, List.not_mem_nil, or_false] at hx
    rcases hx with rfl | rfl | rfl | rfl
    · exact ⟨encChar_ne_58 _, encChar_ne_13 _, encChar_ne_10 _⟩
    · exact ⟨encChar_ne_58 _, encChar_ne_13 _, encChar_ne_10 _⟩
    · exact ⟨encChar_ne_58 _, encChar_ne_13 _, encChar_ne_10 _⟩
    · exact ⟨by decide, by decide, by decide⟩
  | a :: b :: c :: rest => by
    intro x hx
    simp only [encodeB64, List.mem_cons] at hx
    rcases hx with rfl | rfl | rfl | rfl | hx
    · exact ⟨encChar_ne_58 _, encChar_ne_13 _, encChar_ne_10 _⟩
    · exact ⟨encChar_ne_58 _, encChar_ne_13 _, encChar_ne_10 _⟩
    · exact ⟨encChar_ne_58 _, encChar_ne_13 _, encChar_ne_10 _⟩
    · exact ⟨encChar_ne_58 _, encChar_ne_13 _, encChar_ne_10 _⟩
    · exact encodeB64_mem rest x hx

lemma filter_encodeB64 (l : List Nat) :
    (encodeB64 l).filter (fun c => !(c == 13) && !(c == 10)) = encodeB64 l := by
  apply List.filter_eq_self.mpr
  intro a ha
  have h := encodeB64_mem l a ha
  have h13 : (a == 13) = false := beq_eq_false_iff_ne.mpr h.2.1
  have h10 : (a == 10) = false := beq_eq_false_iff_ne.mpr h.2.2
  simp [h13, h10]

lemma encodeB64_ne_nil (x : List Nat) (h : x ≠ []) : encodeB64 x ≠ [] := by
  rcases x with _ | ⟨a, _ | ⟨b, _ | ⟨c, rest⟩⟩⟩
  · exact absurd rfl h
  · simp [encodeB64]
  · simp [encodeB64]
  · simp [encodeB64]

lemma decodeGroups_encodeB64 :
    ∀ (l : List Nat), (∀ b ∈ l, b < 256) → decodeGroups (encodeB64 l) = some l
  | [] => by intro h; simp [encodeB64, decodeGroups]
  | [a] => by
    intro h
    have ha : a < 256 := h a (by simp)
    have h0 : decChar (encChar (a / 4)) = some (a / 4) := decChar_encChar _ (by omega)
    have h1 : decChar (encChar (a % 4 * 16)) = some (a % 4 * 16) := decChar_encChar _ (by omega)
    simp only [encodeB64, decodeGroups, h0, h1]
    have : a / 4 * 4 + a % 4 * 16 / 16 = a := by omega
    rw [this]
    simp
  | [a, b] => by
    intro h
    have ha : a < 256 := h a (by simp)
    have hb : b < 256 := h b (by simp)
    have h0 : decChar (encChar (a / 4)) = some (a / 4) := decChar_encChar _ (by omega)
    have h1 : decChar (encChar (a % 4 * 16 + b / 16)) = some (a % 4 * 16 + b / 16) :=
      decChar_encChar _ (by omega)
    have h2 : decChar (encChar (b % 16 * 4)) = some (b % 16 * 4) :=
      decChar_encChar _ (by omega)
    simp only [encodeB64, decodeGroups, h0, h1, h2, if_neg (encChar_ne_61 (b % 16 * 4))]
    have e1 : a / 4 * 4 + (a % 4 * 16 + b / 16) / 16 = a := by omega
    have e2 : (a % 4 * 16 + b / 16) % 16 * 16 + b % 16 * 4 / 4 = b := by omega
    rw [e1, e2]
    simp
  | a :: b :: c :: rest => by
    intro h
    have ha : a < 256 := h a (by simp)
    have hb : b < 256 := h b (by simp)
    have hc : c < 256 := h c (by simp)
    have h0 : decChar (encChar (a / 4)) = some (a / 4) := decChar_encChar _ (by omega)
    have h1 : decChar (encChar (a % 4 * 16 + b / 16)) = some (a % 4 * 16 + b / 16) :=
      decChar_encChar _ (by omega)
    have h2 : decChar (encChar (b % 16 * 4 + c / 64)) = some (b % 16 * 4 + c / 64) :=
      decChar_encChar _ (by omega)
    have h3 : decChar (encChar (c % 64)) = some (c % 64) := decChar_encChar _ (by omega)
    have ih := decodeGroups_encodeB64 rest (fun x hx => h x (by simp [hx]))
    simp only [encodeB64, decodeGroups, h0, h1, h2, h3,
      if_neg (encChar_ne_61 (b % 16 * 4 + c / 64)), if_neg (encChar_ne_61 (c % 64)), ih,
      Option.map_some]
    have e1 : a / 4 * 4 + (a % 4 * 16 + b / 16) / 16 = a := by omega
    have e2 : (a % 4 * 16 + b / 16) % 16 * 16 + (b % 16 * 4 + c / 64) / 4 = b := by omega
    have e3 : (b % 16 * 4 + c / 64) % 4 * 64 + c % 64 = c := by omega
    rw [e1, e2, e3]
    rfl

lemma decodeB64_encodeB64 (l : List Nat) (h : ∀ b ∈ l, b < 256) :
    decodeB64 (encodeB64 l) = some l := by
  unfold decodeB64
  rw [filter_encodeB64]
  exact decodeGroups_encodeB64 l h

end Spoke

namespace Spoke

lemma listStartsWith_append {pat a : List Nat} (b : List Nat)
    (h : listStartsWith pat a = true) : listStartsWith pat (a ++ b) = true := by
  induction pat generalizing a with
  | nil => simp [listStartsWith]
  | cons p ps ih =>
    cases a with
    | nil => simp [listStartsWith] at h
    | cons x xs =>
      simp only [listStartsWith, Bool.and_eq_true, decide_eq_true_eq] at h
      simp only [List.cons_append, listStartsWith, Bool.and_eq_true, decide_eq_true_eq]
      exact ⟨h.1, ih h.2⟩

lemma exists_dropWhile_append (p : Nat → Bool) (l : List Nat) :
    ∃ s, l = s ++ l.dropWhile p := by
  induction l with
  | nil => exact ⟨[], rfl⟩
  | cons x xs ih =>
    by_cases h : p x
    · obtain ⟨s, hs⟩ := ih
      refine ⟨x :: s, ?_⟩
      rw [List.dropWhile_cons, if_pos h]
      simpa using hs
    · exact ⟨[], by rw [List.dropWhile_cons, if_neg h]; rfl⟩

lemma listStartsWith_trim {pat l : List Nat}
    (h : listStartsWith pat (trimSpaceBytes l) = true) :
    listStartsWith pat (l.dropWhile isSpaceByte) = true := by
  unfold trimSpaceBytes at h
  obtain ⟨s, hs⟩ := exists_dropWhile_append isSpaceByte (l.dropWhile isSpaceByte).reverse
  have hrw : l.dropWhile isSpaceByte =
      ((l.dropWhile isSpaceByte).reverse.dropWhile isSpaceByte).reverse ++ s.reverse := by
    have := congrArg List.reverse hs
    simpa using this
  rw [hrw]
  exact listStartsWith_append _ h

lemma listHasSub_of_startsWith {pat l : List Nat}
    (h : listStartsWith pat l = true) : listHasSub pat l = true := by
  cases l with
  | nil =>
    cases pat with
    | nil => simp [listHasSub]
    | cons p ps => simp [listStartsWith] at h
  | cons x xs => simp [listHasSub, h]

lemma listHasSub_dropWhile {pat : List Nat} (p : Nat → Bool) (l : List Nat)
    (h : listHasSub pat (l.dropWhile p) = true) : listHasSub pat l = true := by
  induction l with
  | nil => simpa using h
  | cons x xs ih =>
    by_cases hp : p x
    · rw [List.dropWhile_cons, if_pos hp] at h
      have := ih h
      simp [listHasSub, this]
    · rwa [List.dropWhile_cons, if_neg hp] at h

lemma listHasSub_of_trim {pat l : List Nat}
    (h : listStartsWith pat (trimSpaceBytes l) = true) : listHasSub pat l = true :=
  listHasSub_dropWhile isSpaceByte l (listHasSub_of_startsWith (listStartsWith_trim h))

lemma listStartsWith_subset {pat l : List Nat}
    (h : listStartsWith pat l = true) : ∀ x ∈ pat, x ∈ l := by
  induction pat generalizing l with
  | nil => simp
  | cons p ps ih =>
    cases l with
    | nil => simp [listStartsWith] at h
    | cons y ys =>
      simp only [listStartsWith, Bool.and_eq_true, decide_eq_true_eq] at h
      intro x hx
      rcases List.mem_cons.mp hx with rfl | hx
      · simp [h.1]
      · exact List.mem_cons_of_mem _ (ih h.2 x hx)

lemma mem_trimSpaceBytes {x : Nat} {l : List Nat}
    (h : x ∈ trimSpaceBytes l) : x ∈ l := by
  unfold trimSpaceBytes at h
  rw [List.mem_reverse] at h
  have h2 : x ∈ (l.dropWhile isSpaceByte).reverse := (List.dropWhile_sublist _).subset h
  rw [List.mem_reverse] at h2
  exact (List.dropWhile_sublist _).subset h2

lemma marker_not_startsWith_enc (x : List Nat) :
    listStartsWith apiVersionMarker (trimSpaceBytes (encodeB64 x)) = false := by
  by_contra hcon
  rw [Bool.not_eq_false] at hcon
  have h58 : (58 : Nat) ∈ apiVersionMarker := by decide
  have hmem := mem_trimSpaceBytes (listStartsWith_subset hcon 58 h58)
  exact (encodeB64_mem x 58 hmem).1 rfl

end Spoke

namespace Spoke

lemma adminSecretRefName_some {cd : KObj} {sn : String}
    (h : adminSecretRefName cd = some sn) :
    ∃ spec cm kref, lookupObj cd "spec" = some spec ∧
      lookupObj spec "clusterMetadata" = some cm ∧
      lookupObj cm "adminKubeconfigSecretRef" = some kref ∧
      lookupStr kref "name" = some sn := by
  unfold adminSecretRefName at h
  rcases h1 : lookupObj cd "spec" with _ | spec
  · simp [h1] at h
  · simp only [h1] at h
    rcases h2 : lookupObj spec "clusterMetadata" with _ | cm
    · simp [h2] at h
    · simp only [h2] at h
      rcases h3 : lookupObj cm "adminKubeconfigSecretRef" with _ | kref
      · simp [h3] at h
      · simp only [h3] at h
        exact ⟨spec, cm, kref, rfl, h2, h3, h⟩

lemma adminSecretRefName_mkCD (sn : String) : adminSecretRefName (mkCD sn) = some sn := by
  simp [adminSecretRefName, mkCD, lookupObj, kLookup, lookupStr]

lemma extract_secret_error (cd : KObj)
    (sget : String → String → Except String (List (String × List Nat)))
    (cn sn e : String) (h : adminSecretRefName cd = some sn)
    (hs : sget cn sn = Except.error e) :
    Extract (Except.ok cd) sget cn =
      Except.error ("failed to get admin kubeconfig secret " ++ cn ++ "/" ++ sn ++
        ": " ++ e) := by
  obtain ⟨spec, cm, kref, h1, h2, h3, h4⟩ := adminSecretRefName_some h
  simp [Extract, h1, h2, h3, h4, hs]

lemma extract_missing_key (cd : KObj)
    (sget : String → String → Except String (List (String × List Nat)))
    (cn sn : String) (data : List (String × List Nat))
    (h : adminSecretRefName cd = some sn) (hs : sget cn sn = Except.ok data)
    (hk : data.lookup "kubeconfig" = none) :
    Extract (Except.ok cd) sget cn =
      Except.error ("kubeconfig key not found in secret " ++ cn ++ "/" ++ sn) := by
  obtain ⟨spec, cm, kref, h1, h2, h3, h4⟩ := adminSecretRefName_some h
  simp [Extract, h1, h2, h3, h4, hs, hk]

lemma extract_empty_data (cd : KObj)
    (sget : String → String → Except String (List (String × List Nat)))
    (cn sn : String) (data : List (String × List Nat))
    (h : adminSecretRefName cd = some sn) (hs : sget cn sn = Except.ok data)
    (hk : data.lookup "kubeconfig" = some []) :
    Extract (Except.ok cd) sget cn =
      Except.error ("kubeconfig data is empty in secret " ++ cn ++ "/" ++ sn) := by
  obtain ⟨spec, cm, kref, h1, h2, h3, h4⟩ := adminSecretRefName_some h
  simp [Extract, h1, h2, h3, h4, hs, hk]

lemma extract_with_data (cd : KObj)
    (sget : String → String → Except String (List (String × List Nat)))
    (cn sn : String) (data : List (String × List Nat)) (kd : List Nat)
    (h : adminSecretRefName cd = some sn) (hs : sget cn sn = Except.ok data)
    (hk : data.lookup "kubeconfig" = some kd) (hne : kd ≠ []) :
    Extract (Except.ok cd) sget cn =
      if listHasSub apiVersionMarker (normalizeKubeconfig kd) &&
          listHasSub kindMarker (normalizeKubeconfig kd) then
        Except.ok (normalizeKubeconfig kd)
      else Except.error "kubeconfig validation failed: missing required YAML fields" := by
  obtain ⟨spec, cm, kref, h1, h2, h3, h4⟩ := adminSecretRefName_some h
  have hlen : ¬(kd.length = 0) := by simpa [List.length_eq_zero] using hne
  simp [Extract, h1, h2, h3, h4, hs, hk, hlen]

end Spoke

namespace Spoke

/-- C3: credential-extraction round-trip. A stored value that is already a
valid kubeconfig document (leading `"apiVersion:"` marker after trimming,
containing `"kind:"`) is returned byte-for-byte unchanged; the same document
stored base64-encoded is returned decoded to the original bytes; and a value
that neither leads with the marker nor decodes as base64 is used as-is
rather than failing. -/
theorem extract_roundtrip (x : List Nat) (cn sn : String)
    (h1 : listStartsWith apiVersionMarker (trimSpaceBytes x) = true)
    (h2 : listHasSub kindMarker x = true)
    (h3 : x ≠ []) :
    Extract (Except.ok (mkCD sn)) (mkSecretGet x) cn = Except.ok x ∧
    ((∀ b ∈ x, b < 256) →
      Extract (Except.ok (mkCD sn)) (mkSecretGet (encodeB64 x)) cn = Except.ok x) ∧
    (∀ y : List Nat, y ≠ [] →
      listStartsWith apiVersionMarker (trimSpaceBytes y) = false →
      decodeB64 y = none →
      listHasSub apiVersionMarker y = true →
      listHasSub kindMarker y = true →
      Extract (Except.ok (mkCD sn)) (mkSecretGet y) cn = Except.ok y) := by
  have hmarker : listHasSub apiVersionMarker x = true := listHasSub_of_trim h1
  refine ⟨?_, fun hbytes => ?_, fun y hy hySW hyDec hyA hyK => ?_⟩
  · have hb : isBase64Encoded x = false := by simp [isBase64Encoded, h1]
    have hn : normalizeKubeconfig x = x := by simp [normalizeKubeconfig, hb]
    rw [extract_with_data (mkCD sn) (mkSecretGet x) cn sn [("kubeconfig", x)] x
      (adminSecretRefName_mkCD sn) rfl (by simp) h3, hn]
    simp [hmarker, h2]
  · have hrt : decodeB64 (encodeB64 x) = some x := decodeB64_encodeB64 x hbytes
    have hb : isBase64Encoded (encodeB64 x) = true := by
      simp [isBase64Encoded, marker_not_startsWith_enc, hrt]
    have hn : normalizeKubeconfig (encodeB64 x) = x := by
      simp [normalizeKubeconfig, hb, hrt]
    rw [extract_with_data (mkCD sn) (mkSecretGet (encodeB64 x)) cn sn
      [("kubeconfig", encodeB64 x)] (encodeB64 x)
      (adminSecretRefName_mkCD sn) rfl (by simp) (encodeB64_ne_nil x h3), hn]
    simp [hmarker, h2]
  · have hb : isBase64Encoded y = false := by simp [isBase64Encoded, hySW, hyDec]
    have hn : normalizeKubeconfig y = y := by simp [normalizeKubeconfig, hb]
    rw [extract_with_data (mkCD sn) (mkSecretGet y) cn sn [("kubeconfig", y)] y
      (adminSecretRefName_mkCD sn) rfl (by simp) hy, hn]
    simp [hyA, hyK]

/-- Witness for C3: a concrete kubeconfig document is passed through
unchanged, its base64 encoding is decoded back to it, and a concrete
non-YAML-leading, non-base64 value falls back to the raw bytes. -/
theorem extract_roundtrip_witness :
    Extract (Except.ok (mkCD "s")) (mkSecretGet c3Doc) "c" = Except.ok c3Doc ∧
    Extract (Except.ok (mkCD "s")) (mkSecretGet (encodeB64 c3Doc)) "c" = Except.ok c3Doc ∧
    Extract (Except.ok (mkCD "s")) (mkSecretGet c3Fallback) "c" = Except.ok c3Fallback := by
  obtain ⟨ha, hb, hc⟩ := extract_roundtrip c3Doc "c" "s" (by decide) (by decide) (by decide)
  exact ⟨ha, hb (by decide), hc c3Fallback (by decide) (by decide) (by decide)
    (by decide) (by decide)⟩

/-- C7: `Extract` fails, returning no credential bytes, in each scenario:
the ClusterDeployment get fails (record absent), the secret get fails
(secret absent), the secret lacks the `kubeconfig` key or holds an empty
value, and the normalized bytes missing a required document marker. -/
theorem extract_failures :
    (∀ (e cn : String)
      (sget : String → String → Except String (List (String × List Nat))),
      Extract (Except.error e) sget cn =
        Except.error ("failed to get ClusterDeployment " ++ cn ++ ": " ++ e ++
          " (cluster not found or not managed by Hive)")) ∧
    (∀ (cd : KObj) (sget : String → String → Except String (List (String × List Nat)))
      (cn sn e : String), adminSecretRefName cd = some sn →
      sget cn sn = Except.error e →
      Extract (Except.ok cd) sget cn =
        Except.error ("failed to get admin kubeconfig secret " ++ cn ++ "/" ++ sn ++
          ": " ++ e)) ∧
    (∀ (cd : KObj) (sget : String → String → Except String (List (String × List Nat)))
      (cn sn : String) (data : List (String × List Nat)),
      adminSecretRefName cd = some sn → sget cn sn = Except.ok data →
      data.lookup "kubeconfig" = none →
      Extract (Except.ok cd) sget cn =
        Except.error ("kubeconfig key not found in secret " ++ cn ++ "/" ++ sn)) ∧
    (∀ (cd : KObj) (sget : String → String → Except String (List (String × List Nat)))
      (cn sn : String) (data : List (String × List Nat)),
      adminSecretRefName cd = some sn → sget cn sn = Except.ok data →
      data.lookup "kubeconfig" = some [] →
      Extract (Except.ok cd) sget cn =
        Except.error ("kubeconfig data is empty in secret " ++ cn ++ "/" ++ sn)) ∧
    (∀ (cd : KObj) (sget : String → String → Except String (List (String × List Nat)))
      (cn sn : String) (data : List (String × List Nat)) (kd : List Nat),
      adminSecretRefName cd = some sn → sget cn sn = Except.ok data →
      data.lookup "kubeconfig" = some kd → kd ≠ [] →
      (listHasSub apiVersionMarker (normalizeKubeconfig kd) &&
        listHasSub kindMarker (normalizeKubeconfig kd)) = false →
      Extract (Except.ok cd) sget cn =
        Except.error "kubeconfig validation failed: missing required YAML fields") := by
  refine ⟨fun e cn sget => rfl,
    fun cd sget cn sn e h hs => extract_secret_error cd sget cn sn e h hs,
    fun cd sget cn sn data h hs hk => extract_missing_key cd sget cn sn data h hs hk,
    fun cd sget cn sn data h hs hk => extract_empty_data cd sget cn sn data h hs hk,
    fun cd sget cn sn data kd h hs hk hne hval => ?_⟩
  rw [extract_with_data cd sget cn sn data kd h hs hk hne, if_neg]
  simp [hval]

/-- Witness for C7: a missing provisioning record, a missing secret, a
secret without the `kubeconfig` key, and a value failing marker validation
each produce an error on concrete inputs. -/
theorem extract_failures_witness :
    Extract (Except.error "records not found") c7BadSecretGet "c" =
      Except.error ("failed to get ClusterDeployment c: records not found" ++
        " (cluster not found or not managed by Hive)") ∧
    Extract (Except.ok (mkCD "s")) (fun _ _ => Except.error "secrets s not found") "c" =
      Except.error "failed to get admin kubeconfig secret c/s: secrets s not found" ∧
    Extract (Except.ok (mkCD "s")) c7BadSecretGet "c" =
      Except.error "kubeconfig key not found in secret c/s" ∧
    Extract (Except.ok (mkCD "s")) (mkSecretGet [120]) "c" =
      Except.error "kubeconfig validation failed: missing required YAML fields" := by
  obtain ⟨hA, hB, hC, _, hE⟩ := extract_failures
  refine ⟨hA "records not found" "c" c7BadSecretGet, ?_, ?_, ?_⟩
  · exact hB (mkCD "s") (fun _ _ => Except.error "secrets s not found") "c" "s"
      "secrets s not found" rfl rfl
  · exact hC (mkCD "s") c7BadSecretGet "c" "s" [("token", [97])] rfl rfl (by decide)
  · exact hE (mkCD "s") (mkSecretGet [120]) "c" "s" [("kubeconfig", [120])] [120]
      rfl rfl (by decide) (by decide) (by decide)

end Spoke

namespace Spoke

/-- C8: when extraction succeeds, `ExtractToFile` creates the parent
directory and writes exactly the extracted bytes to the output path with
permission `0o600` — no read, write, or execute bits for group or other;
when extraction fails, the error is returned and nothing is written. -/
theorem extractToFile_spec (cdResult : Except String KObj)
    (sget : String → String → Except String (List (String × List Nat)))
    (cn path : String) :
    (∀ kc, Extract cdResult sget cn = Except.ok kc →
      ExtractToFile cdResult sget cn path =
        Except.ok [FsOp.mkdirAll (dirOf path) 493, FsOp.writeFile path kc 384] ∧
      (∀ p content perm,
        FsOp.writeFile p content perm ∈
          [FsOp.mkdirAll (dirOf path) 493, FsOp.writeFile path kc 384] →
        p = path ∧ content = kc ∧ perm = 384 ∧ Nat.land perm 63 = 0)) ∧
    (∀ e, Extract cdResult sget cn = Except.error e →
      ExtractToFile cdResult sget cn path = Except.error e) := by
  constructor
  · intro kc h
    refine ⟨by simp [ExtractToFile, h], fun p content perm hmem => ?_⟩
    simp only [List.mem_cons, List.not_mem_nil, or_false] at hmem
    rcases hmem with hmem | hmem
    · cases hmem
    · obtain ⟨rfl, rfl, rfl⟩ := (FsOp.writeFile.injEq _ _ _ _ _ _).mp hmem
      exact ⟨rfl, rfl, rfl, by decide⟩
  · intro e h
    simp [ExtractToFile, h]

/-- Witness for C8: on a concrete successful extraction the recorded write
has the extracted bytes and permission `0o600` with no group/other bits, and
on a concrete failed extraction the error propagates with no writes. -/
theorem extractToFile_spec_witness :
    ExtractToFile (Except.ok (mkCD "s")) (mkSecretGet c3Doc) "c" "out/kubeconfig" =
      Except.ok [FsOp.mkdirAll (dirOf "out/kubeconfig") 493,
        FsOp.writeFile "out/kubeconfig" c3Doc 384] ∧
    Nat.land 384 63 = 0 ∧
    ExtractToFile (Except.error "gone") (mkSecretGet c3Doc) "c" "out/kubeconfig" =
      Except.error ("failed to get ClusterDeployment c: gone" ++
        " (cluster not found or not managed by Hive)") := by
  obtain ⟨hok, herr⟩ :=
    extractToFile_spec (Except.ok (mkCD "s")) (mkSecretGet c3Doc) "c" "out/kubeconfig"
  obtain ⟨h1, h2⟩ := hok c3Doc rfl
  refine ⟨h1, ?_, ?_⟩
  · exact (h2 "out/kubeconfig" c3Doc 384 (by simp)).2.2.2
  · exact (extractToFile_spec (Except.error "gone") (mkSecretGet c3Doc) "c"
      "out/kubeconfig").2 _ rfl

end Spoke
